import Mathlib

/-!
Verification of the session token lifecycle manager of the Varzesha
tennis-community front end: the axios client in
`src/Varzesha_front/src/api/client.ts` (request interceptor = Outbound
Guard, response interceptor = Inbound Guard, module-level `isRefreshing` /
`refreshSubscribers` / `refreshToken` = Renewal Coordinator) together with
the auth store's `logout` (session teardown).

The client is embedded two ways, both directly from the source:

* pure functions for the synchronous pieces (`refreshToken`, the decision
  logic at the head of the request interceptor, `logout`);
* an executable small-step machine over interleaved request tasks for the
  concurrent behaviour.  The scheduling model follows the event loop:
  code between two `await`s runs atomically, and a scheduler action either
  runs a task's next atomic block or resolves a pending network operation
  (the renewal `axios.post`, or the server's reply to a transmitted
  request).
-/

namespace TokenClient

/-- Bearer tokens are plain strings (the JWT text). -/
abbrev Token := String

/-- JavaScript truthiness of a `localStorage.getItem` result: `null`
(modelled `none`) and the empty string are falsy.  Used by the
`if (!refresh) return null;` check in `refreshToken`. -/
def isTruthy : Option Token → Bool
  | none => false
  | some s => s != ""

/-- The two credential keys of `localStorage` that `client.ts` reads and
writes: `access_token` and `refresh_token`.  `none` means the key is
absent. -/
structure Store where
  access : Option Token
  refresh : Option Token
deriving DecidableEq, Repr

/-- Environment of the interceptors: `decode` embeds `jwtDecode(token).exp`
(`none` when `jwtDecode` throws on a malformed token), `now` embeds
`Date.now() / 1000`.  Both are JS numbers, modelled as rationals. -/
structure Params where
  decode : Token → Option ℚ
  now : ℚ

/-- Outcome of the awaited `axios.post` renewal exchange: `ok access` is a
2xx reply carrying `response.data.access`; `err` is any network error or
non-2xx reply (axios throws, and `refreshToken`'s catch receives it). -/
inductive NetResult
  | ok (access : Token)
  | err
deriving DecidableEq, Repr

/-- Result of one call to `refreshToken`: the value it returns, the store
after the call, and the number of network calls made to the renewal
endpoint during the call. -/
structure RefreshOutcome where
  result : Option Token
  store : Store
  netCalls : Nat
deriving DecidableEq, Repr

/-- Embedding of `refreshToken` (client.ts lines 28-43), parametrised by
the outcome `net` the network would deliver: read `refresh_token`; if it is
falsy return `null` without touching the network; otherwise POST it to
`/users/auth/refresh/`; on success persist `response.data.access` under
`access_token` and return it; the surrounding try/catch turns every failure
into `null`, so the function never throws. -/
def refreshToken (store : Store) (net : NetResult) : RefreshOutcome :=
  if isTruthy store.refresh then
    match net with
    | .ok a => ⟨some a, { store with access := some a }, 1⟩
    | .err => ⟨none, store, 1⟩
  else
    ⟨none, store, 0⟩

/-- Decision taken by the synchronous head of the request interceptor
(client.ts lines 45-90) before any suspension point: send untouched, attach
the stored token, start a renewal as leader, or subscribe behind the
renewal already in flight. -/
inductive GuardDecision
  | passThrough
  | attach (t : Token)
  | renewLeader
  | renewWait
deriving DecidableEq, Repr

/-- Embedding of the request interceptor's decision logic: with no stored
token, or when `jwtDecode` throws (the catch only logs), control falls
through to `return config`; when the decoded `exp` satisfies
`decoded.exp < currentTime` the renewal path is entered, as leader when
`!isRefreshing` and as subscriber otherwise; otherwise the stored token is
attached as `Authorization: Bearer <token>`. -/
def outboundGuard (P : Params) (isRefreshing : Bool) (access : Option Token) :
    GuardDecision :=
  match access with
  | none => .passThrough
  | some t =>
    match P.decode t with
    | none => .passThrough
    | some exp =>
      if exp < P.now then
        if isRefreshing then .renewWait else .renewLeader
      else .attach t

/-- Request configuration as the interceptor sees it: the Authorization
header (the bearer token it carries, if any) plus every remaining field of
the axios config, abstracted into `rest`. -/
structure Config where
  auth : Option Token
  rest : Nat
deriving DecidableEq, Repr

/-- Effect of a non-suspending guard decision on the request configuration:
`attach t` performs `config.headers.Authorization = Bearer t`;
`passThrough` returns `config` unchanged. -/
def applyDecision (d : GuardDecision) (cfg : Config) : Config :=
  match d with
  | .attach t => { cfg with auth := some t }
  | _ => cfg

/-- Point an interleaved request task has reached.  `retry` is the
`_retry` flag the response interceptor stores on the axios config, `auth`
the token currently in the Authorization header. -/
inductive TaskState
  | outStart (retry : Bool) (auth : Option Token)
  | outAwait (retry : Bool) (auth : Option Token)
  | outWait (retry : Bool) (auth : Option Token)
  | inflight (retry : Bool) (auth : Option Token)
  | inAwait (auth : Option Token)
  | doneOk (auth : Option Token)
  | doneErr
deriving DecidableEq, Repr

/-- Observable events recorded by the machine: a subscriber callback being
invoked with a renewed token (`onTokenRefreshed` reaching that
subscriber), and a request being replayed by the response interceptor
(`return apiClient(originalRequest)`). -/
inductive Event
  | delivered (i : Nat) (tok : Token)
  | retried (i : Nat)
deriving DecidableEq, Repr

/-- Whole-process state: the module-level coordination state of client.ts
(`isRefreshing`, `refreshSubscribers`), the credential store, the
interleaved request tasks, the recorded events, and counters for network
calls to the renewal endpoint and firings of the session-teardown signal
(`useAuthStore.getState().logout()` followed by the redirect to
`/login`). -/
structure GState where
  isRefreshing : Bool
  refreshSubscribers : List Nat
  store : Store
  refreshCalls : Nat
  logoutCalls : Nat
  tasks : List TaskState
  events : List Event
deriving DecidableEq, Repr

/-- Embedding of `subscribeTokenRefresh` (client.ts lines 19-21): append
the calling task to `refreshSubscribers`. -/
def subscribeTokenRefresh (g : GState) (i : Nat) : GState :=
  { g with refreshSubscribers := g.refreshSubscribers ++ [i] }

/-- Effect of `useAuthStore.getState().logout()` followed by the redirect
to `/login`: both credential keys removed from the store, one more firing
of the session-end signal. -/
def doLogout (g : GState) : GState :=
  { g with store := ⟨none, none⟩, logoutCalls := g.logoutCalls + 1 }

/-- Effect of one subscriber callback invoked by `onTokenRefreshed`: the
token is written into that request's config and its pending promise is
resolved, upon which its interceptor returns the config and the request is
transmitted. -/
def deliverOne (tok : Token) (ts : List TaskState) (j : Nat) : List TaskState :=
  match ts[j]? with
  | some (.outWait r _) => ts.set j (.inflight r (some tok))
  | _ => ts

/-- Embedding of the loop inside `onTokenRefreshed` on the task array: the
subscriber callbacks run in FIFO registration order. -/
def deliverAll (subs : List Nat) (tok : Token) (ts : List TaskState) :
    List TaskState :=
  subs.foldl (deliverOne tok) ts

/-- Scheduler actions: `start i` runs the request interceptor of task `i`
up to its first suspension point; `netOk` / `netErr` resolve the renewal
network call task `i` is awaiting and run the continuation up to the next
suspension point; `respOk` / `resp401` deliver the server's reply to the
transmitted task `i` (a success, or a 401 which runs the response
interceptor's error handler up to its first suspension point). -/
inductive Act
  | start (i : Nat)
  | netOk (i : Nat) (tok : Token)
  | netErr (i : Nat)
  | respOk (i : Nat)
  | resp401 (i : Nat)
deriving DecidableEq, Repr

/-- One atomic step of the event loop.  Each branch is read off client.ts:

* `start` — the request interceptor head (lines 45-90).  On the leader
  path, `isRefreshing` is set, `refreshToken` runs to its `axios.post`
  (counting one renewal call) when `refresh_token` is truthy; when it is
  falsy `refreshToken` returns `null` at once, so in the same turn the flag
  is cleared again, `logout()` and the redirect fire, and control falls to
  `return config` — the request is still transmitted.
* `netOk` on the leader — `refreshToken` persists the new access token and
  returns it; the interceptor clears `isRefreshing`, runs
  `onTokenRefreshed` (draining `refreshSubscribers` in FIFO order into
  transmitted requests carrying the new token, and clearing the list),
  attaches the token to its own config and transmits.
* `netOk` on a 401 handler — `refreshToken` persists and returns the
  token; the handler writes it into `originalRequest.headers` and replays
  the request through `apiClient`, so the task re-enters the request
  interceptor with `_retry` set.
* `netErr` on the leader — `refreshToken` returns `null`; the interceptor
  clears `isRefreshing`, fires `logout()` and the redirect, leaves
  `refreshSubscribers` untouched, and falls through to `return config`.
* `netErr` on a 401 handler — `logout()`, redirect, then
  `Promise.reject(error)`.
* `respOk` — the response interceptor's success branch passes the response
  through.
* `resp401` — the error handler (lines 93-113): with `_retry` already set
  it goes straight to `Promise.reject(error)`; otherwise it sets `_retry`
  and calls `refreshToken` directly — without consulting `isRefreshing` —
  which either runs to its network call or, with a falsy `refresh_token`,
  returns `null` at once so `logout()`, the redirect and the rejection all
  happen in this turn.

`none` means the action is not enabled in the given state. -/
def step (P : Params) (g : GState) (a : Act) : Option GState :=
  match a with
  | .start i =>
    match g.tasks[i]? with
    | some (.outStart r au) =>
      match outboundGuard P g.isRefreshing g.store.access with
      | .passThrough => some { g with tasks := g.tasks.set i (.inflight r au) }
      | .attach t => some { g with tasks := g.tasks.set i (.inflight r (some t)) }
      | .renewWait =>
        some { subscribeTokenRefresh g i with
               tasks := g.tasks.set i (.outWait r au) }
      | .renewLeader =>
        if isTruthy g.store.refresh then
          some { g with isRefreshing := true,
                        refreshCalls := g.refreshCalls + 1,
                        tasks := g.tasks.set i (.outAwait r au) }
        else
          some { doLogout g with tasks := g.tasks.set i (.inflight r au) }
    | _ => none
  | .netOk i tok =>
    match g.tasks[i]? with
    | some (.outAwait r _) =>
      some { g with
             isRefreshing := false,
             store := { g.store with access := some tok },
             refreshSubscribers := [],
             events := g.events ++
               g.refreshSubscribers.map (fun j => .delivered j tok),
             tasks := (deliverAll g.refreshSubscribers tok g.tasks).set i
               (.inflight r (some tok)) }
    | some (.inAwait _) =>
      some { g with
             store := { g.store with access := some tok },
             events := g.events ++ [.retried i],
             tasks := g.tasks.set i (.outStart true (some tok)) }
    | _ => none
  | .netErr i =>
    match g.tasks[i]? with
    | some (.outAwait r au) =>
      some { doLogout g with isRefreshing := false,
                             tasks := g.tasks.set i (.inflight r au) }
    | some (.inAwait _) =>
      some { doLogout g with tasks := g.tasks.set i .doneErr }
    | _ => none
  | .respOk i =>
    match g.tasks[i]? with
    | some (.inflight _ au) => some { g with tasks := g.tasks.set i (.doneOk au) }
    | _ => none
  | .resp401 i =>
    match g.tasks[i]? with
    | some (.inflight r au) =>
      if r then
        some { g with tasks := g.tasks.set i .doneErr }
      else
        if isTruthy g.store.refresh then
          some { g with refreshCalls := g.refreshCalls + 1,
                        tasks := g.tasks.set i (.inAwait au) }
        else
          some { doLogout g with tasks := g.tasks.set i .doneErr }
    | _ => none

/-- Run a list of scheduler actions from a state; `none` as soon as an
action is not enabled. -/
def run (P : Params) (g : GState) : List Act → Option GState
  | [] => some g
  | a :: rest =>
    match step P g a with
    | some g' => run P g' rest
    | none => none

/-- Process start: flag clear, no subscribers, no events, `n` fresh
application requests (`_retry` unset, no Authorization header yet), over
the given credential store. -/
def initState (store : Store) (n : Nat) : GState :=
  ⟨false, [], store, 0, 0, List.replicate n (.outStart false none), []⟩

/-- Renewal network calls currently awaiting resolution (their `axios.post`
has been issued but not answered). -/
def awaitingRenewal : TaskState → Bool
  | .outAwait _ _ => true
  | .inAwait _ => true
  | _ => false

/-- Number of renewal network calls in flight at once. -/
def inflightRenewals (g : GState) : Nat := g.tasks.countP awaitingRenewal

/-- In-memory slice of the zustand auth store that `logout` touches:
`user`, `tokens` and `isAuthenticated` are reset; `isLoading` is not
mentioned by `logout` and stays as it was.  The `User` payload is opaque
here. -/
structure AuthMem where
  user : Option Nat
  tokens : Option (Token × Token)
  isAuthenticated : Bool
  isLoading : Bool
deriving DecidableEq, Repr

/-- Browser `localStorage` slice: the two credential keys plus every other
key (for instance the `auth-storage` persist entry), which the two
`localStorage.removeItem` calls in `logout` do not touch. -/
structure BrowserStorage where
  access : Option Token
  refresh : Option Token
  other : List (String × String)
deriving DecidableEq, Repr

/-- Embedding of `logout` from the auth store: remove `access_token` and
`refresh_token` from `localStorage` and
`set (user := null, tokens := null, isAuthenticated := false)`. -/
def logout (ls : BrowserStorage) (st : AuthMem) : BrowserStorage × AuthMem :=
  ({ ls with access := none, refresh := none },
   { st with user := none, tokens := none, isAuthenticated := false })

/-- Concrete environment used in witnesses and counterexamples: token
`"T1"` decodes with expiry 1, token `"T9"` with expiry 9, every other
string is malformed (`jwtDecode` throws); the current time is 5. -/
def P1 : Params :=
  ⟨fun t => if t = "T1" then some 1 else if t = "T9" then some 9 else none, 5⟩

/-- Concrete environment whose token `"T5"` decodes with expiry exactly
equal to the current time 5. -/
def P6 : Params := ⟨fun t => if t = "T5" then some 5 else none, 5⟩

/-- Store holding the expired access token `"T1"` and a refresh token. -/
def sExp : Store := ⟨some "T1", some "R"⟩

/-- Store holding the still-valid access token `"T9"` and a refresh
token. -/
def sVal : Store := ⟨some "T9", some "R"⟩

/-- Coordination invariant of the outbound renewal path: a task awaiting
the renewal exchange as leader of the request interceptor exists only
while `isRefreshing` is set, and there is at most one such task. -/
def OutboundSingleFlight (g : GState) : Prop :=
  ∀ (i : Nat) (r : Bool) (a : Option Token),
    g.tasks[i]? = some (TaskState.outAwait r a) →
    g.isRefreshing = true ∧
    ∀ (j : Nat) (r' : Bool) (a' : Option Token),
      g.tasks[j]? = some (TaskState.outAwait r' a') → j = i

/-- Number of replays the response interceptor may still perform for a
request in the given state: one while the `_retry` flag is unset or a
replay is pending resolution, none afterwards or once the request is
settled. -/
def retryBudget : Option TaskState → Nat
  | some (.outStart r _) => if r then 0 else 1
  | some (.outAwait r _) => if r then 0 else 1
  | some (.outWait r _) => if r then 0 else 1
  | some (.inflight r _) => if r then 0 else 1
  | some (.inAwait _) => 1
  | _ => 0

/-- Retry accounting of request `i`: replays already performed plus
replays the response interceptor may still perform. -/
def retryMeasure (g : GState) (i : Nat) : Nat :=
  g.events.count (Event.retried i) + retryBudget g.tasks[i]?

/-- State reached from two fresh requests over the expired store after the
first became renewal leader and the second subscribed. -/
def gC1 : GState :=
  (run P1 (initState sExp 2) [Act.start 0, Act.start 1]).getD (initState sExp 2)

/-- State reached from `gC1` by a successful renewal resolution. -/
def gC1ok : GState := (step P1 gC1 (Act.netOk 0 "T9")).getD gC1

/-- State of one request that was 401-rejected, renewed with `"T9"`,
replayed, and 401-rejected again. -/
def gC2 : GState :=
  (run P1 (initState sVal 1)
    [Act.start 0, Act.resp401 0, Act.netOk 0 "T9", Act.start 0,
     Act.resp401 0]).getD (initState sVal 1)

/-- State of two 401-rejected requests whose renewal calls are both in
flight at once. -/
def gC5 : GState :=
  (run P1 (initState sVal 2)
    [Act.start 0, Act.start 1, Act.resp401 0, Act.resp401 1]).getD
    (initState sVal 2)

/-- State reached from `gC5` by failing the first renewal call. -/
def gC5err : GState := (step P1 gC5 (Act.netErr 0)).getD gC5

/-- State of a single request that became renewal leader over the expired
store. -/
def gC7 : GState :=
  (run P1 (initState sExp 1) [Act.start 0]).getD (initState sExp 1)

/-- State reached from `gC7` by failing the leader's renewal call. -/
def gC7err : GState := (step P1 gC7 (Act.netErr 0)).getD gC7

/-- Reading a list updated at an index below its length. -/
theorem getElem?_set_lt {α : Type} {ts : List α} {k : Nat}
    (hk : k < ts.length) (t' : α) (i : Nat) :
    (ts.set k t')[i]? = if k = i then some t' else ts[i]? := by
  by_cases hki : k = i
  · subst hki
    simp [List.getElem?_set, hk]
  · simp [List.getElem?_set, hki]

/-- Reading a list updated at an index known to be in bounds. -/
theorem getElem?_set_of_mem {α : Type} {ts : List α} {k : Nat} {told : α}
    (h : ts[k]? = some told) (t' : α) (i : Nat) :
    (ts.set k t')[i]? = if k = i then some t' else ts[i]? :=
  getElem?_set_lt (List.getElem?_eq_some.mp h).1 t' i

/-- One subscriber callback does not change the number of tasks. -/
theorem deliverOne_length (tok : Token) (ts : List TaskState) (j : Nat) :
    (deliverOne tok ts j).length = ts.length := by
  unfold deliverOne
  split
  · simp
  · rfl

/-- Draining the subscriber list does not change the number of tasks. -/
theorem deliverAll_length (subs : List Nat) (tok : Token)
    (ts : List TaskState) :
    (deliverAll subs tok ts).length = ts.length := by
  induction subs generalizing ts with
  | nil => rfl
  | cons k rest ih =>
    show (deliverAll rest tok (deliverOne tok ts k)).length = ts.length
    rw [ih (deliverOne tok ts k), deliverOne_length]

/-- One subscriber callback never produces a task awaiting renewal as
leader. -/
theorem deliverOne_outAwait {tok : Token} {ts : List TaskState} {j i : Nat}
    {r : Bool} {a : Option Token}
    (h : (deliverOne tok ts j)[i]? = some (TaskState.outAwait r a)) :
    ts[i]? = some (TaskState.outAwait r a) := by
  unfold deliverOne at h
  split at h
  case h_1 r' a' heq =>
    rw [getElem?_set_of_mem heq _ i] at h
    by_cases hji : j = i
    · simp [hji] at h
    · simpa [hji] using h
  case h_2 => exact h

/-- Draining the subscriber list never produces a task awaiting renewal as
leader. -/
theorem deliverAll_outAwait {subs : List Nat} {tok : Token}
    {ts : List TaskState} {i : Nat} {r : Bool} {a : Option Token}
    (h : (deliverAll subs tok ts)[i]? = some (TaskState.outAwait r a)) :
    ts[i]? = some (TaskState.outAwait r a) := by
  induction subs generalizing ts with
  | nil => exact h
  | cons k rest ih => exact deliverOne_outAwait (ih h)

/-- One subscriber callback leaves every request's retry budget
untouched: it turns a subscribed task into a transmitted one with the same
`_retry` flag. -/
theorem retryBudget_deliverOne (tok : Token) (ts : List TaskState)
    (j i : Nat) :
    retryBudget ((deliverOne tok ts j)[i]?) = retryBudget (ts[i]?) := by
  unfold deliverOne
  split
  case h_1 r a heq =>
    rw [getElem?_set_of_mem heq _ i]
    by_cases hji : j = i
    · subst hji
      simp [heq, retryBudget]
    · simp [hji]
  case h_2 => rfl

/-- Draining the subscriber list leaves every request's retry budget
untouched. -/
theorem retryBudget_deliverAll (subs : List Nat) (tok : Token)
    (ts : List TaskState) (i : Nat) :
    retryBudget ((deliverAll subs tok ts)[i]?) = retryBudget (ts[i]?) := by
  induction subs generalizing ts with
  | nil => rfl
  | cons k rest ih =>
    show retryBudget ((deliverAll rest tok (deliverOne tok ts k))[i]?) =
      retryBudget (ts[i]?)
    rw [ih (deliverOne tok ts k), retryBudget_deliverOne]

/-- Waiter deliveries do not add replay events. -/
theorem count_retried_append_delivered (ev : List Event) (subs : List Nat)
    (tok : Token) (i : Nat) :
    (ev ++ subs.map (fun j => Event.delivered j tok)).count
      (Event.retried i) = ev.count (Event.retried i) := by
  rw [List.count_append]
  have h0 : (subs.map (fun j => Event.delivered j tok)).count
      (Event.retried i) = 0 := by
    rw [List.count_eq_zero]
    simp
  omega

/-- Counting replay events across an appended replay record. -/
theorem count_retried_append_retried (ev : List Event) (k i : Nat) :
    (ev ++ [Event.retried k]).count (Event.retried i) =
      ev.count (Event.retried i) + (if k = i then 1 else 0) := by
  rw [List.count_append]
  by_cases hki : k = i
  · subst hki
    simp
  · simp [List.count_cons, List.count_nil, hki]

/-- The request interceptor only starts a renewal as leader when the
in-flight flag is clear. -/
theorem outboundGuard_renewLeader {P : Params} {b : Bool}
    {acc : Option Token} (h : outboundGuard P b acc = .renewLeader) :
    b = false := by
  cases b
  · rfl
  · unfold outboundGuard at h
    split at h
    · exact absurd h (by simp)
    · split at h
      · exact absurd h (by simp)
      · split at h
        · simp at h
        · exact absurd h (by simp)

/-- Replacing one task by anything that is not a renewal leader, without
touching the flag, preserves the single-flight invariant. -/
theorem osf_preserve_set {g : GState} (hg : OutboundSingleFlight g)
    {k : Nat} {told : TaskState} (hk : g.tasks[k]? = some told)
    {t' : TaskState} (ht' : ∀ r a, t' ≠ TaskState.outAwait r a)
    (subs' : List Nat) (st' : Store) (rc lc : Nat) (ev' : List Event) :
    OutboundSingleFlight
      ⟨g.isRefreshing, subs', st', rc, lc, g.tasks.set k t', ev'⟩ := by
  intro i r a hi
  rw [getElem?_set_of_mem hk t' i] at hi
  by_cases hki : k = i
  · rw [if_pos hki] at hi
    exact absurd (Option.some.inj hi) (ht' r a)
  · rw [if_neg hki] at hi
    refine ⟨(hg i r a hi).1, ?_⟩
    intro j r' a' hj
    rw [getElem?_set_of_mem hk t' j] at hj
    by_cases hkj : k = j
    · rw [if_pos hkj] at hj
      exact absurd (Option.some.inj hj) (ht' r' a')
    · rw [if_neg hkj] at hj
      exact (hg i r a hi).2 j r' a' hj

/-- Resolving the unique renewal leader preserves the single-flight
invariant provided the new task array introduces no leader. -/
theorem osf_resolve_leader {g : GState} (hg : OutboundSingleFlight g)
    {k : Nat} {r : Bool} {a : Option Token}
    (hk : g.tasks[k]? = some (TaskState.outAwait r a))
    {ts' : List TaskState}
    (hts' : ∀ (i : Nat) (r' : Bool) (a' : Option Token),
      ts'[i]? = some (TaskState.outAwait r' a') →
      g.tasks[i]? = some (TaskState.outAwait r' a') ∧ i ≠ k)
    (b : Bool) (subs' : List Nat) (st' : Store) (rc lc : Nat)
    (ev' : List Event) :
    OutboundSingleFlight ⟨b, subs', st', rc, lc, ts', ev'⟩ := by
  intro i r' a' hi
  obtain ⟨hold, hik⟩ := hts' i r' a' hi
  exact absurd ((hg k r a hk).2 i r' a' hold) hik

/-- Starting a renewal as leader from a state whose flag is clear (hence,
by the invariant, with no leader present) preserves the single-flight
invariant. -/
theorem osf_new_leader {g : GState} (hg : OutboundSingleFlight g)
    (hflag : g.isRefreshing = false)
    {k : Nat} {told : TaskState} (hk : g.tasks[k]? = some told)
    (r : Bool) (a : Option Token) (subs' : List Nat) (st' : Store)
    (rc lc : Nat) (ev' : List Event) :
    OutboundSingleFlight
      ⟨true, subs', st', rc, lc,
        g.tasks.set k (TaskState.outAwait r a), ev'⟩ := by
  intro i r' a' hi
  rw [getElem?_set_of_mem hk _ i] at hi
  by_cases hki : k = i
  · refine ⟨rfl, ?_⟩
    intro j r'' a'' hj
    rw [getElem?_set_of_mem hk _ j] at hj
    by_cases hkj : k = j
    · rw [← hkj, ← hki]
    · rw [if_neg hkj] at hj
      have := (hg j r'' a'' hj).1
      rw [hflag] at this
      exact absurd this (by simp)
  · rw [if_neg hki] at hi
    have := (hg i r' a' hi).1
    rw [hflag] at this
    exact absurd this (by simp)

/-- Every enabled scheduler step preserves the outbound single-flight
invariant. -/
theorem step_osf {P : Params} {g g' : GState} {a : Act}
    (hs : step P g a = some g') (hg : OutboundSingleFlight g) :
    OutboundSingleFlight g' := by
  cases a with
  | start k =>
    simp only [step] at hs
    split at hs
    next r au heq =>
      split at hs
      next hguard =>
        injection hs with hs
        subst hs
        exact osf_preserve_set hg heq (by intro r' a' h; cases h) _ _ _ _ _
      next t hguard =>
        injection hs with hs
        subst hs
        exact osf_preserve_set hg heq (by intro r' a' h; cases h) _ _ _ _ _
      next hguard =>
        injection hs with hs
        subst hs
        exact osf_preserve_set hg heq (by intro r' a' h; cases h) _ _ _ _ _
      next hguard =>
        split at hs
        · injection hs with hs
          subst hs
          exact osf_new_leader hg (outboundGuard_renewLeader hguard) heq
            r au _ _ _ _ _
        · injection hs with hs
          subst hs
          exact osf_preserve_set hg heq (by intro r' a' h; cases h) _ _ _ _ _
    next =>
      exact absurd hs (by simp)
  | netOk k tok =>
    simp only [step] at hs
    split at hs
    next r au heq =>
      injection hs with hs
      subst hs
      refine osf_resolve_leader hg heq ?_ _ _ _ _ _ _
      intro i r' a' hi
      have hk : k < g.tasks.length := (List.getElem?_eq_some.mp heq).1
      rw [getElem?_set_lt
        (by rw [deliverAll_length]; exact hk) _ i] at hi
      by_cases hki : k = i
      · rw [if_pos hki] at hi
        exact absurd (Option.some.inj hi) (by intro h; cases h)
      · rw [if_neg hki] at hi
        exact ⟨deliverAll_outAwait hi, fun h => hki h.symm⟩
    next au heq =>
      injection hs with hs
      subst hs
      exact osf_preserve_set hg heq (by intro r' a' h; cases h) _ _ _ _ _
    next =>
      exact absurd hs (by simp)
  | netErr k =>
    simp only [step] at hs
    split at hs
    next r au heq =>
      injection hs with hs
      subst hs
      refine osf_resolve_leader hg heq ?_ _ _ _ _ _ _
      intro i r' a' hi
      rw [getElem?_set_of_mem heq _ i] at hi
      by_cases hki : k = i
      · rw [if_pos hki] at hi
        exact absurd (Option.some.inj hi) (by intro h; cases h)
      · rw [if_neg hki] at hi
        exact ⟨hi, fun h => hki h.symm⟩
    next au heq =>
      injection hs with hs
      subst hs
      exact osf_preserve_set hg heq (by intro r' a' h; cases h) _ _ _ _ _
    next =>
      exact absurd hs (by simp)
  | respOk k =>
    simp only [step] at hs
    split at hs
    next r au heq =>
      injection hs with hs
      subst hs
      exact osf_preserve_set hg heq (by intro r' a' h; cases h) _ _ _ _ _
    next =>
      exact absurd hs (by simp)
  | resp401 k =>
    simp only [step] at hs
    split at hs
    next r au heq =>
      split at hs
      · injection hs with hs
        subst hs
        exact osf_preserve_set hg heq (by intro r' a' h; cases h) _ _ _ _ _
      · split at hs
        · injection hs with hs
          subst hs
          exact osf_preserve_set hg heq (by intro r' a' h; cases h) _ _ _ _ _
        · injection hs with hs
          subst hs
          exact osf_preserve_set hg heq (by intro r' a' h; cases h) _ _ _ _ _
    next =>
      exact absurd hs (by simp)

/-- Running any schedule preserves the outbound single-flight invariant. -/
theorem run_osf {P : Params} {acts : List Act} :
    ∀ {g g' : GState}, run P g acts = some g' → OutboundSingleFlight g →
      OutboundSingleFlight g' := by
  induction acts with
  | nil =>
    intro g g' h hg
    injection h with h
    subst h
    exact hg
  | cons a rest ih =>
    intro g g' h hg
    unfold run at h
    split at h
    next g₁ hstep => exact ih h (step_osf hstep hg)
    next => exact absurd h (by simp)

/-- The initial state satisfies the outbound single-flight invariant. -/
theorem initState_osf (store : Store) (n : Nat) :
    OutboundSingleFlight (initState store n) := by
  intro i r a hi
  have := List.getElem?_replicate (a := TaskState.outStart false none)
    (n := n) (m := i)
  rw [show (initState store n).tasks =
    List.replicate n (TaskState.outStart false none) from rfl, this] at hi
  split at hi
  · cases hi
  · cases hi

/-- Replacing one task, without touching the events, never raises the
retry measure as long as the new task's budget does not exceed the old
one's. -/
theorem retryMeasure_set_le {g : GState} {k : Nat} {told : TaskState}
    (hk : g.tasks[k]? = some told) {t' : TaskState}
    (hb : retryBudget (some t') ≤ retryBudget (some told))
    (b : Bool) (subs' : List Nat) (st' : Store) (rc lc : Nat) (i : Nat) :
    retryMeasure ⟨b, subs', st', rc, lc, g.tasks.set k t', g.events⟩ i ≤
      retryMeasure g i := by
  unfold retryMeasure
  simp only
  rw [getElem?_set_of_mem hk t' i]
  by_cases hki : k = i
  · subst hki
    rw [if_pos rfl, hk]
    omega
  · rw [if_neg hki]

/-- Every enabled scheduler step is non-increasing on every request's
retry measure. -/
theorem step_retryMeasure {P : Params} {g g' : GState} {a : Act}
    (hs : step P g a = some g') (i : Nat) :
    retryMeasure g' i ≤ retryMeasure g i := by
  cases a with
  | start k =>
    simp only [step] at hs
    split at hs
    next r au heq =>
      split at hs
      next hguard =>
        injection hs with hs
        subst hs
        refine retryMeasure_set_le heq ?_ _ _ _ _ _ i
        exact Nat.le_refl _
      next t hguard =>
        injection hs with hs
        subst hs
        refine retryMeasure_set_le heq ?_ _ _ _ _ _ i
        exact Nat.le_refl _
      next hguard =>
        injection hs with hs
        subst hs
        refine retryMeasure_set_le heq ?_ _ _ _ _ _ i
        exact Nat.le_refl _
      next hguard =>
        split at hs
        · injection hs with hs
          subst hs
          refine retryMeasure_set_le heq ?_ _ _ _ _ _ i
          exact Nat.le_refl _
        · injection hs with hs
          subst hs
          refine retryMeasure_set_le heq ?_ _ _ _ _ _ i
          exact Nat.le_refl _
    next =>
      exact absurd hs (by simp)
  | netOk k tok =>
    simp only [step] at hs
    split at hs
    next r au heq =>
      injection hs with hs
      subst hs
      have hk : k < g.tasks.length := (List.getElem?_eq_some.mp heq).1
      unfold retryMeasure
      simp only
      rw [count_retried_append_delivered,
        getElem?_set_lt (by rw [deliverAll_length]; exact hk) _ i]
      by_cases hki : k = i
      · subst hki
        rw [if_pos rfl, heq]
        exact Nat.le_refl _
      · rw [if_neg hki, retryBudget_deliverAll]
    next au heq =>
      injection hs with hs
      subst hs
      unfold retryMeasure
      simp only
      rw [count_retried_append_retried,
        getElem?_set_of_mem heq _ i]
      by_cases hki : k = i
      · subst hki
        rw [if_pos rfl, if_pos rfl, heq]
        simp [retryBudget]
      · rw [if_neg hki, if_neg hki]
        omega
    next =>
      exact absurd hs (by simp)
  | netErr k =>
    simp only [step] at hs
    split at hs
    next r au heq =>
      injection hs with hs
      subst hs
      refine retryMeasure_set_le heq ?_ _ _ _ _ _ i
      exact Nat.le_refl _
    next au heq =>
      injection hs with hs
      subst hs
      refine retryMeasure_set_le heq ?_ _ _ _ _ _ i
      exact Nat.zero_le _
    next =>
      exact absurd hs (by simp)
  | respOk k =>
    simp only [step] at hs
    split at hs
    next r au heq =>
      injection hs with hs
      subst hs
      refine retryMeasure_set_le heq ?_ _ _ _ _ _ i
      exact Nat.zero_le _
    next =>
      exact absurd hs (by simp)
  | resp401 k =>
    simp only [step] at hs
    split at hs
    next r au heq =>
      split at hs
      next hr =>
        injection hs with hs
        subst hs
        refine retryMeasure_set_le heq ?_ _ _ _ _ _ i
        exact Nat.zero_le _
      next hr =>
        split at hs
        · injection hs with hs
          subst hs
          refine retryMeasure_set_le heq ?_ _ _ _ _ _ i
          simp only [Bool.not_eq_true] at hr
          subst hr
          exact Nat.le_refl _
        · injection hs with hs
          subst hs
          refine retryMeasure_set_le heq ?_ _ _ _ _ _ i
          exact Nat.zero_le _
    next =>
      exact absurd hs (by simp)

/-- Running any schedule is non-increasing on every request's retry
measure. -/
theorem run_retryMeasure {P : Params} {acts : List Act} :
    ∀ {g g' : GState}, run P g acts = some g' → ∀ i : Nat,
      retryMeasure g' i ≤ retryMeasure g i := by
  induction acts with
  | nil =>
    intro g g' h i
    injection h with h
    subst h
    exact Nat.le_refl _
  | cons a rest ih =>
    intro g g' h i
    unfold run at h
    split at h
    next g₁ hstep => exact (ih h i).trans (step_retryMeasure hstep i)
    next => exact absurd h (by simp)

/-- In the initial state every request's retry measure is at most one. -/
theorem initState_retryMeasure (store : Store) (n : Nat) (i : Nat) :
    retryMeasure (initState store n) i ≤ 1 := by
  unfold retryMeasure initState
  simp only [List.count_nil]
  rw [List.getElem?_replicate]
  split
  · simp [retryBudget]
  · simp [retryBudget]

/-- C1 counterexample: two requests carrying the still-valid token `"T9"`
are both transmitted and both 401-rejected; the response interceptor
handles the two rejections back to back, before either renewal resolves.
Both handlers call `refreshToken` directly — the interceptor never
consults `isRefreshing` — so the renewal endpoint receives two calls and
both are in flight at the same moment, refuting the claimed single
network call per renewal cycle under concurrent demand. -/
theorem c1_counterexample :
    (run P1 (initState sVal 2)
      [Act.start 0, Act.start 1, Act.resp401 0, Act.resp401 1]).map
      (fun g => (g.refreshCalls, inflightRenewals g)) = some (2, 2) := by
  rfl

/-- C1 (amended): single-flight holds only for renewals initiated by the
request interceptor: in every state reachable from process start, a task
awaiting the renewal exchange as Outbound-Guard leader exists only while
`isRefreshing` is set and is unique, so at most one outbound-initiated
renewal network call is ever in flight.  (Renewals initiated by the
response interceptor on a 401 bypass this coordination entirely.) -/
theorem c1_single_flight_amended (P : Params) (store : Store) (n : Nat)
    (acts : List Act) (g : GState)
    (h : run P (initState store n) acts = some g) :
    OutboundSingleFlight g :=
  run_osf h (initState_osf store n)

/-- Witness for the amended C1: the state with the first request as
renewal leader and the second subscribed is reachable, and the invariant
instantiates there. -/
theorem c1_single_flight_amended_witness :
    gC1.isRefreshing = true ∧ (0 : Nat) = 0 :=
  ⟨(c1_single_flight_amended P1 sExp 2 [Act.start 0, Act.start 1] gC1 rfl
      0 false none rfl).1,
   (c1_single_flight_amended P1 sExp 2 [Act.start 0, Act.start 1] gC1 rfl
      0 false none rfl).2 0 false none rfl⟩

/-- C2: at-most-one retry.  In every reachable state each request has been
replayed at most once by the response interceptor, and a 401 delivered to
a request whose `_retry` flag is already set is surfaced as failure at
once: the request settles to the error state with no renewal call, no
replay, no teardown and no event recorded. -/
theorem c2_at_most_one_retry (P : Params) (store : Store) (n : Nat)
    (acts : List Act) (g : GState)
    (h : run P (initState store n) acts = some g) :
    (∀ i : Nat, g.events.count (Event.retried i) ≤ 1) ∧
    (∀ (i : Nat) (au : Option Token) (g' : GState),
      g.tasks[i]? = some (TaskState.inflight true au) →
      step P g (Act.resp401 i) = some g' →
      g'.tasks[i]? = some TaskState.doneErr ∧
      g'.refreshCalls = g.refreshCalls ∧ g'.events = g.events ∧
      g'.logoutCalls = g.logoutCalls) := by
  constructor
  · intro i
    have h1 := run_retryMeasure h i
    have h2 := initState_retryMeasure store n i
    have h3 : g.events.count (Event.retried i) ≤ retryMeasure g i :=
      Nat.le_add_right _ _
    omega
  · intro i au g' ht hs
    simp only [step, ht, if_pos rfl] at hs
    injection hs with hs
    subst hs
    refine ⟨?_, rfl, rfl, rfl⟩
    rw [getElem?_set_of_mem ht _ i, if_pos rfl]

/-- Witness for C2: a request that was 401-rejected, successfully renewed
and replayed, then 401-rejected again, ends with exactly one recorded
replay. -/
theorem c2_at_most_one_retry_witness :
    gC2.events.count (Event.retried 0) ≤ 1 :=
  (c2_at_most_one_retry P1 sVal 1
    [Act.start 0, Act.resp401 0, Act.netOk 0 "T9", Act.start 0,
     Act.resp401 0] gC2 rfl).1 0

/-- C3 counterexample: from two fresh requests over the expired token
`"T1"`, the schedule [first request starts renewal as leader; second
subscribes; renewal fails] reaches a state where `isRefreshing` is false
while `refreshSubscribers` is still `[1]`: the waiter list was never
drained during the cycle, refuting the claimed invariant that the list is
non-empty only while the flag is true and is drained once per cycle. -/
theorem c3_counterexample :
    (run P1 (initState sExp 2)
      [Act.start 0, Act.start 1, Act.netErr 0]).map
      (fun g => (g.isRefreshing, g.refreshSubscribers)) =
      some (false, [1]) := by
  rfl

/-- C3 (amended): the waiter list is drained only on successful renewal:
when the leader's exchange resolves with a token, the flag is cleared and,
in the same synchronous block, every waiter is invoked with that token in
FIFO registration order and the list is emptied; when the exchange fails,
the flag is cleared but no waiter is invoked and the list survives intact,
so waiters can be pending while no renewal is in flight (and a later cycle
may deliver its own token to them). -/
theorem c3_renewal_state_amended (P : Params) (g : GState) (i : Nat)
    (r : Bool) (a : Option Token)
    (h : g.tasks[i]? = some (TaskState.outAwait r a)) :
    (∀ (tok : Token) (g' : GState),
      step P g (Act.netOk i tok) = some g' →
      g'.isRefreshing = false ∧ g'.refreshSubscribers = [] ∧
      g'.events = g.events ++
        g.refreshSubscribers.map (fun j => Event.delivered j tok)) ∧
    (∀ g' : GState, step P g (Act.netErr i) = some g' →
      g'.isRefreshing = false ∧
      g'.refreshSubscribers = g.refreshSubscribers ∧
      g'.events = g.events) := by
  constructor
  · intro tok g' hs
    simp only [step, h] at hs
    injection hs with hs
    subst hs
    exact ⟨rfl, rfl, rfl⟩
  · intro g' hs
    simp only [step, h] at hs
    injection hs with hs
    subst hs
    exact ⟨rfl, rfl, rfl⟩

/-- Witness for the amended C3 at the concrete leader/waiter state. -/
theorem c3_renewal_state_amended_witness :
    gC1ok.isRefreshing = false ∧ gC1ok.refreshSubscribers = [] ∧
    gC1ok.events = gC1.events ++
      gC1.refreshSubscribers.map (fun j => Event.delivered j "T9") :=
  (c3_renewal_state_amended P1 gC1 0 false none rfl).1 "T9" gC1ok rfl

/-- C4 counterexample: with the malformed stored token `"bad"` (and a
refresh token available), the request interceptor transmits the request
with no Authorization header and zero calls to the renewal endpoint — the
request is not routed through the renewal path, refuting the claimed
fail-safe. -/
theorem c4_counterexample :
    (run P1 (initState ⟨some "bad", some "R"⟩ 1) [Act.start 0]).map
      (fun g => (g.refreshCalls, g.tasks)) =
      some (0, [TaskState.inflight false none]) := by
  rfl

/-- C4 (amended): when the stored access token is present but its embedded
expiry cannot be decoded, the interceptor's catch only logs: the request
is passed through with its configuration unchanged — the malformed token
is indeed never attached, but no renewal is triggered either; the request
is sent without an Authorization header. -/
theorem c4_decode_failsafe_amended (P : Params) (b : Bool) (t : Token)
    (cfg : Config) (h : P.decode t = none) :
    outboundGuard P b (some t) = GuardDecision.passThrough ∧
    applyDecision (outboundGuard P b (some t)) cfg = cfg := by
  have h1 : outboundGuard P b (some t) = GuardDecision.passThrough := by
    simp [outboundGuard, h]
  exact ⟨h1, by rw [h1]; rfl⟩

/-- Witness for the amended C4 at the concrete malformed token `"bad"`. -/
theorem c4_decode_failsafe_amended_witness :
    outboundGuard P1 true (some "bad") = GuardDecision.passThrough ∧
    applyDecision (outboundGuard P1 true (some "bad")) ⟨none, 7⟩ =
      ⟨none, 7⟩ :=
  c4_decode_failsafe_amended P1 true "bad" ⟨none, 7⟩ rfl

/-- C5 counterexample: two requests are 401-rejected and each handler
starts its own renewal call (the response interceptor bypasses the
coordinator); both calls fail and each failure fires the session-end
signal (logout plus redirect), so the signal fires twice even though the
concurrent requests triggered the failing renewal together — refuting the
claimed exactly-once firing. -/
theorem c5_counterexample :
    (run P1 (initState sVal 2)
      [Act.start 0, Act.start 1, Act.resp401 0, Act.resp401 1,
       Act.netErr 0, Act.netErr 1]).map (fun g => g.logoutCalls) =
      some 2 := by
  rfl

/-- C5 (amended): every failing renewal resolution removes both credential
keys from the store and fires the session-end signal — but once per
failing `refreshToken` call, not once per renewal cycle: concurrent
401-triggered renewals that fail each fire it again. -/
theorem c5_teardown_amended (P : Params) (g : GState) (i : Nat)
    (g' : GState) (h : step P g (Act.netErr i) = some g') :
    g'.store.access = none ∧ g'.store.refresh = none ∧
    g'.logoutCalls = g.logoutCalls + 1 := by
  simp only [step] at h
  split at h
  next r au heq =>
    injection h with h
    subst h
    exact ⟨rfl, rfl, rfl⟩
  next au heq =>
    injection h with h
    subst h
    exact ⟨rfl, rfl, rfl⟩
  next =>
    exact absurd h (by simp)

/-- Witness for the amended C5 at a concrete failing renewal. -/
theorem c5_teardown_amended_witness :
    gC5err.store.access = none ∧ gC5err.store.refresh = none ∧
    gC5err.logoutCalls = gC5.logoutCalls + 1 :=
  c5_teardown_amended P1 gC5 0 gC5err rfl

/-- C6 counterexample: token `"T5"` decodes with expiry exactly equal to
the current time; the claim requires the renewal path at equality, but
`decoded.exp < currentTime` is false, so the interceptor attaches the
token and sends immediately. -/
theorem c6_counterexample :
    outboundGuard P6 false (some "T5") = GuardDecision.attach "T5" := by
  rfl

/-- C6 (amended): the boundary is strict in the other direction: a
decodable token enters the renewal path (as leader, or as subscriber when
a renewal is in flight) exactly when its expiry is strictly below the
current time, and is attached and sent immediately whenever its expiry is
at or after the current time — including when it equals the current time
exactly. -/
theorem c6_expiry_boundary_amended (P : Params) (b : Bool) (t : Token)
    (e : ℚ) (h : P.decode t = some e) :
    (e < P.now → outboundGuard P b (some t) =
      (if b then GuardDecision.renewWait else GuardDecision.renewLeader)) ∧
    (P.now ≤ e → outboundGuard P b (some t) = GuardDecision.attach t) := by
  constructor
  · intro hlt
    simp [outboundGuard, h, hlt]
  · intro hle
    simp [outboundGuard, h, not_lt.mpr hle]

/-- Witness for the amended C6: an expired token enters the renewal path
and a live one is attached. -/
theorem c6_expiry_boundary_amended_witness :
    outboundGuard P1 false (some "T1") = GuardDecision.renewLeader ∧
    outboundGuard P1 false (some "T9") = GuardDecision.attach "T9" :=
  ⟨by
    have h1 := (c6_expiry_boundary_amended P1 false "T1" 1 rfl).1
      (by decide)
    simpa using h1,
   (c6_expiry_boundary_amended P1 false "T9" 9 rfl).2 (by decide)⟩

/-- C7 counterexample: one request over the expired token becomes renewal
leader and the renewal fails: teardown fires, yet the request ends up
transmitted (the interceptor falls through to `return config`), refuting
the claim that it is not transmitted and an error is surfaced instead. -/
theorem c7_counterexample :
    (run P1 (initState sExp 1) [Act.start 0, Act.netErr 0]).map
      (fun g => (g.tasks, g.logoutCalls)) =
      some ([TaskState.inflight false none], 1) := by
  rfl

/-- C7 (amended): when the renewal awaited by the Outbound-Guard leader
resolves with failure, session teardown fires, but the leader request is
still transmitted with its configuration unchanged (no refreshed
credential, no surfaced error); subscribed waiters of that cycle are never
resolved at all. -/
theorem c7_no_send_amended (P : Params) (g : GState) (i : Nat) (r : Bool)
    (a : Option Token) (g' : GState)
    (h : g.tasks[i]? = some (TaskState.outAwait r a))
    (hs : step P g (Act.netErr i) = some g') :
    g'.tasks[i]? = some (TaskState.inflight r a) ∧
    g'.logoutCalls = g.logoutCalls + 1 := by
  simp only [step, h] at hs
  injection hs with hs
  subst hs
  constructor
  · rw [getElem?_set_of_mem h _ i, if_pos rfl]
  · rfl

/-- Witness for the amended C7 at a concrete failing leader renewal. -/
theorem c7_no_send_amended_witness :
    gC7err.tasks[0]? = some (TaskState.inflight false none) ∧
    gC7err.logoutCalls = gC7.logoutCalls + 1 :=
  c7_no_send_amended P1 gC7 0 false none gC7err rfl rfl

/-- C8: with no access token in the store, the request interceptor passes
the request through unauthenticated and otherwise unchanged: the only
state change is the request moving to transmission with the same
Authorization header; no renewal call, no subscription, no store write and
no teardown occur, and the decision logic leaves any configuration
intact. -/
theorem c8_missing_credential_pass_through (P : Params) (g : GState)
    (i : Nat) (r : Bool) (a : Option Token) (cfg : Config)
    (hacc : g.store.access = none)
    (ht : g.tasks[i]? = some (TaskState.outStart r a)) :
    step P g (Act.start i) =
      some { g with tasks := g.tasks.set i (TaskState.inflight r a) } ∧
    outboundGuard P g.isRefreshing g.store.access =
      GuardDecision.passThrough ∧
    applyDecision (outboundGuard P g.isRefreshing g.store.access) cfg =
      cfg := by
  have hdec : outboundGuard P g.isRefreshing g.store.access =
      GuardDecision.passThrough := by
    rw [hacc]
    rfl
  refine ⟨?_, hdec, by rw [hdec]; rfl⟩
  simp only [step, ht, hdec]

/-- Witness for C8 at a concrete store with no access token. -/
theorem c8_missing_credential_pass_through_witness :
    step P1 (initState ⟨none, some "R"⟩ 1) (Act.start 0) =
      some { initState ⟨none, some "R"⟩ 1 with
             tasks := (initState ⟨none, some "R"⟩ 1).tasks.set 0
               (TaskState.inflight false none) } ∧
    outboundGuard P1 (initState ⟨none, some "R"⟩ 1).isRefreshing
      (initState ⟨none, some "R"⟩ 1).store.access =
      GuardDecision.passThrough ∧
    applyDecision (outboundGuard P1
      (initState ⟨none, some "R"⟩ 1).isRefreshing
      (initState ⟨none, some "R"⟩ 1).store.access) ⟨none, 3⟩ =
      ⟨none, 3⟩ :=
  c8_missing_credential_pass_through P1 (initState ⟨none, some "R"⟩ 1) 0
    false none ⟨none, 3⟩ rfl rfl

/-- C9: `refreshToken` is total — embedded as a function it returns on
every input, and its result is exactly one of: the new access token (only
on a successful exchange, in which case it has been persisted into the
store), or `null`; any network failure yields `null`; and an absent
refresh token yields `null` immediately with zero network calls and the
store untouched. -/
theorem c9_refresh_token_total (store : Store) (net : NetResult) :
    ((refreshToken store net).result = none ∨
      ∃ a : Token, net = NetResult.ok a ∧ refreshToken store net =
        ⟨some a, { store with access := some a }, 1⟩) ∧
    (net = NetResult.err → (refreshToken store net).result = none) ∧
    (store.refresh = none → refreshToken store net = ⟨none, store, 0⟩) := by
  refine ⟨?_, ?_, ?_⟩
  · unfold refreshToken
    by_cases h : isTruthy store.refresh = true
    · rw [if_pos h]
      cases net with
      | ok a => exact Or.inr ⟨a, rfl, rfl⟩
      | err => exact Or.inl rfl
    · rw [if_neg h]
      exact Or.inl rfl
  · intro h
    subst h
    unfold refreshToken
    by_cases h : isTruthy store.refresh = true
    · rw [if_pos h]
    · rw [if_neg h]
  · intro h
    unfold refreshToken
    rw [h]
    rfl

/-- Witness for C9: with the refresh token absent, `refreshToken` returns
`null` at once without a network call. -/
theorem c9_refresh_token_total_witness :
    refreshToken ⟨some "A", none⟩ NetResult.err =
      ⟨none, ⟨some "A", none⟩, 0⟩ :=
  (c9_refresh_token_total ⟨some "A", none⟩ NetResult.err).2.2 rfl

/-- C10: after `logout`, both `localStorage` credential keys are absent
and the in-memory auth state is fully reset — `user` is null, `tokens` is
null and `isAuthenticated` is false — so no credential can subsequently be
read from either location. -/
theorem c10_logout_teardown (ls : BrowserStorage) (st : AuthMem) :
    (logout ls st).1.access = none ∧ (logout ls st).1.refresh = none ∧
    (logout ls st).2.user = none ∧ (logout ls st).2.tokens = none ∧
    (logout ls st).2.isAuthenticated = false :=
  ⟨rfl, rfl, rfl, rfl, rfl⟩

end TokenClient
